import Mathlib

/-!
# Verification of the train-control telemetry platform

Shallow embedding of the telemetry-sink layer of
`src/train_control_platform.py`: the three data managers
(`DataManager`, `StepResponseDataManager`, `DeadbandDataManager`),
the connection-status read-out, the UDP receiver's CSV-file setup,
the mode-switch queue drain, and per-train topic derivation
(`TrainConfig.get_topic`).

Conventions of the embedding:
* Python strings are `List Char` (`Str`); `String.data` converts literals.
* Python `float` values are modelled as exact rationals `ℚ`; the inputs
  the platform handles are short decimal literals, for which this is exact.
* Wall-clock instants (`datetime.now()`) are natural-number seconds passed
  explicitly to the stateful operations.
* Each manager's mutable attributes form a state structure; `add_data`
  is a pure state transformer.  The CSV log file on disk is modelled as
  the list of raw lines appended since the header was written.
-/

abbrev Str := List Char

/-- Python `str.strip()`: drop whitespace from both ends. -/
def pyStrip (s : Str) : Str :=
  ((s.dropWhile Char.isWhitespace).reverse.dropWhile Char.isWhitespace).reverse

/-- Python `str.split(',')`: always returns at least one (possibly empty) field. -/
def splitComma : Str → List Str
  | [] => [[]]
  | c :: rest =>
    match splitComma rest with
    | [] => [[]]
    | h :: t => if c = ',' then [] :: h :: t else (c :: h) :: t

/-- Value of a digit string, most significant first. -/
def digitsVal (ds : Str) : Nat :=
  ds.foldl (fun a c => 10 * a + (c.toNat - 48)) 0

/-- Unsigned decimal literal `123`, `123.45`, `.5`, `7.` — the forms the
firmware emits — as a numerator/denominator pair.  `none` on anything
non-numeric. -/
def parseUnsigned (s : Str) : Option (Nat × Nat) :=
  let ip := s.takeWhile Char.isDigit
  let rest := s.dropWhile Char.isDigit
  match rest with
  | [] => if ip.isEmpty then none else some (digitsVal ip, 1)
  | '.' :: fp =>
    if fp.all Char.isDigit && !(ip.isEmpty && fp.isEmpty) then
      some (digitsVal ip * 10 ^ fp.length + digitsVal fp, 10 ^ fp.length)
    else none
  | _ => none

/-- Model of Python `float(field)` on the platform's telemetry fields:
optional surrounding whitespace, optional sign, decimal literal.
`none` models `float()` raising `ValueError`. -/
def parseFloat (s : Str) : Option ℚ :=
  match pyStrip s with
  | '-' :: rest => (parseUnsigned rest).map (fun p => mkRat (-(p.1 : ℤ)) p.2)
  | '+' :: rest => (parseUnsigned rest).map (fun p => mkRat (p.1 : ℤ) p.2)
  | rest => (parseUnsigned rest).map (fun p => mkRat (p.1 : ℤ) p.2)

/-- Model of Python `int(x)` on a float: truncation toward zero. -/
def pyTrunc (q : ℚ) : ℤ :=
  Int.tdiv q.num (q.den : ℤ)

/-- `queue.Queue(maxsize=1000)` capacity shared by all three managers. -/
def queueCapacity : Nat := 1000

/-- Non-blocking enqueue as coded in `add_data`: push at the back when the
queue is not full, otherwise drop the new sample (drop-newest). -/
def queuePut {α : Type} (q : List α) (x : α) : List α :=
  if q.length < queueCapacity then q ++ [x] else q

/-- Append of the raw datagram line to the CSV file, performed only when a
CSV file is set (`if self.csv_file:`). -/
def logAppend (csv_file : Option Str) (log : List Str) (line : Str) : List Str :=
  match csv_file with
  | some _ => log ++ [line]
  | none => log

/-- `data_string.strip().split(',')` — the field view shared by all three
`add_data` implementations. -/
def dataParts (d : Str) : List Str := splitComma (pyStrip d)

/-- Optional trailing field of the control format: absent fields become
`none` (inner `none`), a present but non-numeric field aborts the whole
parse (outer `none`), mirroring `float(data_parts[i]) if len(...) > i else None`. -/
def parseOptField (parts : List Str) (i : Nat) : Option (Option ℚ) :=
  match parts[i]? with
  | none => some none
  | some f =>
    match parseFloat f with
    | none => none
    | some q => some (some q)

/-- One decoded control-mode record, the dictionary `DataManager.add_data`
stores into `latest_data` and the queue. -/
structure ControlRecord where
  timestamp : Str
  distance : ℚ
  referencia : Option ℚ
  error : Option ℚ
  kp : Option ℚ
  ki : Option ℚ
  kd : Option ℚ
  output_pid : Option ℚ
  full_data : Str
  packet_count : Nat
deriving DecidableEq

/-- Mutable state of `DataManager` (the control/PID sink). -/
structure ControlState where
  total_packets : Nat
  last_packet_time : Option Nat
  connection_status : Str
  latest_data : Option ControlRecord
  data_queue : List ControlRecord
  csv_file : Option Str
  csv_log : List Str
  experiment_active : Bool
deriving DecidableEq

namespace DataManager

/-- `DataManager.__init__`. -/
def init : ControlState :=
  { total_packets := 0
    last_packet_time := none
    connection_status := "Waiting for data".data
    latest_data := none
    data_queue := []
    csv_file := none
    csv_log := []
    experiment_active := false }

/-- The parsing portion of `DataManager.add_data`: at least two fields;
the time field is kept verbatim, fields 2–8 (when present) must convert
via `float`.  Any `float` failure raises, so the whole record is `none`
(nothing gets stored). `pc` is the packet count stamped into the record. -/
def parse (data_string : Str) (pc : Nat) : Option ControlRecord :=
  let parts := dataParts data_string
  if 2 ≤ parts.length then
    match parseFloat (parts.getD 1 []) with
    | none => none
    | some dist =>
      match parseOptField parts 2, parseOptField parts 3, parseOptField parts 4,
            parseOptField parts 5, parseOptField parts 6, parseOptField parts 7 with
      | some referencia, some err, some kp, some ki, some kd, some op =>
        some { timestamp := parts.getD 0 []
               distance := dist
               referencia := referencia
               error := err
               kp := kp
               ki := ki
               kd := kd
               output_pid := op
               full_data := data_string
               packet_count := pc }
      | _, _, _, _, _, _ => none
  else none

/-- `DataManager.add_data`: statistics are updated first (packet count,
reception time, status `"Connected"`); then the datagram is parsed and, on
success, stored into `latest_data`, enqueued (drop-newest on full), and
appended to the CSV file when one is set.  On failure only the statistics
update survives. -/
def add_data (now : Nat) (data_string : Str) (s : ControlState) : ControlState :=
  let s1 : ControlState :=
    { s with total_packets := s.total_packets + 1
             last_packet_time := some now
             connection_status := "Connected".data }
  match parse data_string s1.total_packets with
  | none => s1
  | some r =>
    { s1 with latest_data := some r
              data_queue := queuePut s1.data_queue r
              csv_log := logAppend s1.csv_file s1.csv_log data_string }

/-- Fallback status string of `get_connection_stats` when the last packet
is more than five seconds old. -/
def connection_lost_msg : Str := "Connection lost".data

/-- The status field computed by `DataManager.get_connection_stats`:
staleness is derived at read time from `now - last_packet_time > 5`. -/
def get_connection_stats_status (now : Nat) (s : ControlState) : Str :=
  match s.last_packet_time with
  | some t => if 5 < now - t then connection_lost_msg else s.connection_status
  | none => s.connection_status

end DataManager

/-- One decoded step-response record, the dictionary
`StepResponseDataManager.add_data` stores. -/
structure StepRecord where
  time2sinc : ℚ
  time_event : ℚ
  motor_dir : ℤ
  v_batt : ℚ
  output_G : ℚ
  step_input : ℚ
  PWM_input : ℚ
  applied_step : ℚ
  full_data : Str
  packet_count : Nat
deriving DecidableEq

/-- Mutable state of `StepResponseDataManager` (the step-response sink). -/
structure StepState where
  total_packets : Nat
  last_packet_time : Option Nat
  connection_status : Str
  latest_data : Option StepRecord
  data_queue : List StepRecord
  csv_file : Option Str
  csv_log : List Str
  step_active : Bool
deriving DecidableEq

namespace StepResponseDataManager

/-- `StepResponseDataManager.__init__`. -/
def init : StepState :=
  { total_packets := 0
    last_packet_time := none
    connection_status := "Waiting for data".data
    latest_data := none
    data_queue := []
    csv_file := none
    csv_log := []
    step_active := false }

/-- Leading token of the step CSV header row the ESP32 occasionally echoes. -/
def stepHeaderToken : Str := "time2sinc".data

/-- The parsing portion of `StepResponseDataManager.add_data`: with ≥ 8
fields all eight are converted via `float` (`applied_step` from field 8);
with exactly 7 fields the first seven are converted and `applied_step`
falls back to `step_input` (field 6), for old firmware; fewer than 7
fields — or any `float` failure — yields `none`. -/
def parse (data_string : Str) (pc : Nat) : Option StepRecord :=
  let parts := dataParts data_string
  if 8 ≤ parts.length then
    match parseFloat (parts.getD 0 []), parseFloat (parts.getD 1 []),
          parseFloat (parts.getD 2 []), parseFloat (parts.getD 3 []),
          parseFloat (parts.getD 4 []), parseFloat (parts.getD 5 []),
          parseFloat (parts.getD 6 []), parseFloat (parts.getD 7 []) with
    | some t2, some te, some md, some vb, some og, some si, some pw, some ap =>
      some { time2sinc := t2
             time_event := te
             motor_dir := pyTrunc md
             v_batt := vb
             output_G := og
             step_input := si
             PWM_input := pw
             applied_step := ap
             full_data := data_string
             packet_count := pc }
    | _, _, _, _, _, _, _, _ => none
  else if 7 ≤ parts.length then
    match parseFloat (parts.getD 0 []), parseFloat (parts.getD 1 []),
          parseFloat (parts.getD 2 []), parseFloat (parts.getD 3 []),
          parseFloat (parts.getD 4 []), parseFloat (parts.getD 5 []),
          parseFloat (parts.getD 6 []) with
    | some t2, some te, some md, some vb, some og, some si, some pw =>
      some { time2sinc := t2
             time_event := te
             motor_dir := pyTrunc md
             v_batt := vb
             output_G := og
             step_input := si
             PWM_input := pw
             applied_step := si
             full_data := data_string
             packet_count := pc }
    | _, _, _, _, _, _, _ => none
  else none

/-- `StepResponseDataManager.add_data`: statistics are updated first; a
line whose stripped text starts with `time2sinc` (a re-sent CSV header) is
then skipped before parsing; otherwise the datagram is parsed and, on
success, stored, enqueued (drop-newest on full) and logged. -/
def add_data (now : Nat) (data_string : Str) (s : StepState) : StepState :=
  let s1 : StepState :=
    { s with total_packets := s.total_packets + 1
             last_packet_time := some now
             connection_status := "Connected".data }
  if stepHeaderToken.isPrefixOf (pyStrip data_string) then s1
  else
    match parse data_string s1.total_packets with
    | none => s1
    | some r =>
      { s1 with latest_data := some r
                data_queue := queuePut s1.data_queue r
                csv_log := logAppend s1.csv_file s1.csv_log data_string }

end StepResponseDataManager

/-- One decoded deadband-calibration record. -/
structure DeadbandRecord where
  time : ℚ
  pwm : ℤ
  distance : ℚ
  initial_distance : ℚ
  motion_detected : ℤ
  full_data : Str
  packet_count : Nat
deriving DecidableEq

/-- The five parallel history columns kept by `DeadbandDataManager`. -/
structure DeadbandHistory where
  time : List ℚ
  pwm : List ℤ
  distance : List ℚ
  initial_distance : List ℚ
  motion_detected : List ℤ
deriving DecidableEq

/-- `deadband_history` as reset by `__init__` and `clear_history`. -/
def emptyDeadbandHistory : DeadbandHistory :=
  { time := [], pwm := [], distance := [], initial_distance := [], motion_detected := [] }

/-- Mutable state of `DeadbandDataManager` (the deadband-calibration sink).
`calibrated_deadband = 0` is the uncalibrated sentinel. -/
structure DeadbandState where
  total_packets : Nat
  last_packet_time : Option Nat
  connection_status : Str
  latest_data : Option DeadbandRecord
  data_queue : List DeadbandRecord
  csv_file : Option Str
  csv_log : List Str
  deadband_active : Bool
  calibrated_deadband : ℤ
  deadband_history : DeadbandHistory
deriving DecidableEq

namespace DeadbandDataManager

/-- `DeadbandDataManager.__init__`. -/
def init : DeadbandState :=
  { total_packets := 0
    last_packet_time := none
    connection_status := "Waiting for data".data
    latest_data := none
    data_queue := []
    csv_file := none
    csv_log := []
    deadband_active := false
    calibrated_deadband := 0
    deadband_history := emptyDeadbandHistory }

/-- The parsing portion of `DeadbandDataManager.add_data`: at least five
fields `time,pwm,distance,initial_distance,motion_detected`, all converted
via `float` (`pwm` and `motion_detected` then truncated by `int`). -/
def parse (data_string : Str) (pc : Nat) : Option DeadbandRecord :=
  let parts := dataParts data_string
  if 5 ≤ parts.length then
    match parseFloat (parts.getD 0 []), parseFloat (parts.getD 1 []),
          parseFloat (parts.getD 2 []), parseFloat (parts.getD 3 []),
          parseFloat (parts.getD 4 []) with
    | some t, some pw, some dist, some idist, some md =>
      some { time := t
             pwm := pyTrunc pw
             distance := dist
             initial_distance := idist
             motion_detected := pyTrunc md
             full_data := data_string
             packet_count := pc }
    | _, _, _, _, _ => none
  else none

/-- `DeadbandDataManager.add_data`: statistics first; on successful parse
the record is stored, appended to the five history columns, used to latch
`calibrated_deadband` (only when `motion_detected == 1` and the current
value is still the sentinel `0`), enqueued and logged. -/
def add_data (now : Nat) (data_string : Str) (s : DeadbandState) : DeadbandState :=
  let s1 : DeadbandState :=
    { s with total_packets := s.total_packets + 1
             last_packet_time := some now
             connection_status := "Connected".data }
  match parse data_string s1.total_packets with
  | none => s1
  | some r =>
    { s1 with latest_data := some r
              deadband_history :=
                { time := s1.deadband_history.time ++ [r.time]
                  pwm := s1.deadband_history.pwm ++ [r.pwm]
                  distance := s1.deadband_history.distance ++ [r.distance]
                  initial_distance := s1.deadband_history.initial_distance ++ [r.initial_distance]
                  motion_detected := s1.deadband_history.motion_detected ++ [r.motion_detected] }
              calibrated_deadband :=
                if r.motion_detected = 1 ∧ s1.calibrated_deadband = 0 then r.pwm
                else s1.calibrated_deadband
              data_queue := queuePut s1.data_queue r
              csv_log := logAppend s1.csv_file s1.csv_log data_string }

/-- `DeadbandDataManager.clear_history`: empties the history columns and
resets `calibrated_deadband` to the uncalibrated sentinel `0`. -/
def clear_history (s : DeadbandState) : DeadbandState :=
  { s with deadband_history := emptyDeadbandHistory
           calibrated_deadband := 0 }

end DeadbandDataManager

/-- The three experiment kinds the dashboard switches between. -/
inductive ExperimentKind where
  | pid
  | step
  | deadband
deriving DecidableEq

/-- The kind-specific CSV header row written by the respective
`set_csv_file` implementation. -/
def headerRow : ExperimentKind → List Str
  | .pid =>
    ["time_event".data, "input".data, "referencia".data, "error".data,
     "kp".data, "ki".data, "kd".data, "output_PID".data]
  | .step =>
    ["time2sinc".data, "time_event".data, "motor_dir".data, "v_batt".data,
     "output_G".data, "step_input".data, "PWM_input".data, "applied_step".data]
  | .deadband =>
    ["time_ms".data, "pwm".data, "distance_cm".data,
     "initial_distance_cm".data, "motion_detected".data]

/-- Result of a `set_csv_file` call: the filename actually stored into
`self.csv_file` and the header row written as the file's first line. -/
structure CsvTarget where
  csv_file : Str
  headerFields : List Str
deriving DecidableEq

/-- Dynamic dispatch of `set_csv_file` on the installed manager's class:
`DataManager.set_csv_file` prepends the train id to the basename and
writes the control header; the step and deadband overrides store the
filename as given and write their own kind-specific headers.
(Directory handling is abstracted: `filename` stands for the basename.) -/
def set_csv_file (k : ExperimentKind) (train_id : Str) (filename : Str) : CsvTarget :=
  match k with
  | .pid =>
    { csv_file := if train_id.isEmpty then filename else train_id ++ '_' :: filename
      headerFields := headerRow .pid }
  | .step => { csv_file := filename, headerFields := headerRow .step }
  | .deadband => { csv_file := filename, headerFields := headerRow .deadband }

namespace UDPReceiver

/-- The session CSV filename `UDPReceiver.start` builds from a timestamp:
always the control-kind `experiment_` stem, whatever manager is installed. -/
def startCsvName (ts : Str) : Str := "experiment_".data ++ ts ++ ".csv".data

/-- The CSV-setup step at the top of `UDPReceiver.start`: when the
installed manager has a CSV file set and that file exists on disk, the log
target is kept (`none` = unchanged); otherwise a new session CSV named
`experiment_<timestamp>.csv` is created through the installed manager's
own `set_csv_file`. -/
def startCsvSetup (k : ExperimentKind) (train_id : Str) (current_csv : Option Str)
    (onDisk : Str → Bool) (ts : Str) : Option CsvTarget :=
  match current_csv with
  | some f =>
    if onDisk f then none
    else some (set_csv_file k train_id (startCsvName ts))
  | none => some (set_csv_file k train_id (startCsvName ts))

end UDPReceiver

namespace TrainConfig

/-- The fixed leading segment of the default global topics. -/
def trenesSeg : Str := "trenes/".data

/-- `TrainConfig.get_topic`: substitute the train's MQTT prefix for the
leading `trenes/` segment of the base topic, or prepend the prefix when
the base topic does not start with `trenes/`. -/
def get_topic (mqttPref : Str) (base_topic : Str) : Str :=
  if trenesSeg.isPrefixOf base_topic then mqttPref ++ '/' :: base_topic.drop 7
  else mqttPref ++ '/' :: base_topic

end TrainConfig

/-- The three managers' delivery queues held by `TrainControlDashboard`,
as far as the mode-switch drain step is concerned. -/
structure DashboardQueues where
  data_manager_queue : List ControlRecord
  step_data_manager_queue : List StepRecord
  deadband_data_manager_queue : List DeadbandRecord
deriving DecidableEq

/-- The queue-drain step of `TrainControlDashboard.switch_experiment_mode`
(run after stopping the receiver, before installing the new manager): two
`get_nowait` loops empty `data_manager.data_queue` and
`step_data_manager.data_queue`; no loop touches
`deadband_data_manager.data_queue`. -/
def switch_mode_drain (q : DashboardQueues) : DashboardQueues :=
  { q with data_manager_queue := []
           step_data_manager_queue := [] }

/-- The delivery queue of the sink of each kind, as seen by the drain step. -/
def DashboardQueues.queueLen (q : DashboardQueues) : ExperimentKind → Nat
  | .pid => q.data_manager_queue.length
  | .step => q.step_data_manager_queue.length
  | .deadband => q.deadband_data_manager_queue.length

/-! ## Basic facts about the ingestion transformers -/

theorem DataManager.add_data_of_parse_none (now : Nat) (d : Str) (s : ControlState)
    (h : DataManager.parse d (s.total_packets + 1) = none) :
    DataManager.add_data now d s =
      { s with total_packets := s.total_packets + 1
               last_packet_time := some now
               connection_status := "Connected".data } := by
  simp only [DataManager.add_data, h]

theorem DataManager.add_data_of_parse_some (now : Nat) (d : Str) (s : ControlState)
    (r : ControlRecord) (h : DataManager.parse d (s.total_packets + 1) = some r) :
    DataManager.add_data now d s =
      { s with total_packets := s.total_packets + 1
               last_packet_time := some now
               connection_status := "Connected".data
               latest_data := some r
               data_queue := queuePut s.data_queue r
               csv_log := logAppend s.csv_file s.csv_log d } := by
  simp only [DataManager.add_data, h]

theorem DataManager.add_data_stats (now : Nat) (d : Str) (s : ControlState) :
    (DataManager.add_data now d s).total_packets = s.total_packets + 1 ∧
    (DataManager.add_data now d s).last_packet_time = some now ∧
    (DataManager.add_data now d s).connection_status = "Connected".data := by
  cases h : DataManager.parse d (s.total_packets + 1) with
  | none => rw [DataManager.add_data_of_parse_none now d s h]; exact ⟨rfl, rfl, rfl⟩
  | some r => rw [DataManager.add_data_of_parse_some now d s r h]; exact ⟨rfl, rfl, rfl⟩

theorem DeadbandDataManager.deadband_add_data_of_parse_none (now : Nat) (d : Str)
    (s : DeadbandState)
    (h : DeadbandDataManager.parse d (s.total_packets + 1) = none) :
    DeadbandDataManager.add_data now d s =
      { s with total_packets := s.total_packets + 1
               last_packet_time := some now
               connection_status := "Connected".data } := by
  simp only [DeadbandDataManager.add_data, h]

theorem DeadbandDataManager.deadband_add_data_of_parse_some (now : Nat) (d : Str)
    (s : DeadbandState) (r : DeadbandRecord)
    (h : DeadbandDataManager.parse d (s.total_packets + 1) = some r) :
    DeadbandDataManager.add_data now d s =
      { s with total_packets := s.total_packets + 1
               last_packet_time := some now
               connection_status := "Connected".data
               latest_data := some r
               deadband_history :=
                 { time := s.deadband_history.time ++ [r.time]
                   pwm := s.deadband_history.pwm ++ [r.pwm]
                   distance := s.deadband_history.distance ++ [r.distance]
                   initial_distance := s.deadband_history.initial_distance ++ [r.initial_distance]
                   motion_detected := s.deadband_history.motion_detected ++ [r.motion_detected] }
               calibrated_deadband :=
                 if r.motion_detected = 1 ∧ s.calibrated_deadband = 0 then r.pwm
                 else s.calibrated_deadband
               data_queue := queuePut s.data_queue r
               csv_log := logAppend s.csv_file s.csv_log d } := by
  simp only [DeadbandDataManager.add_data, h]

theorem StepResponseDataManager.add_data_of_header (now : Nat) (d : Str) (s : StepState)
    (h : StepResponseDataManager.stepHeaderToken.isPrefixOf (pyStrip d) = true) :
    StepResponseDataManager.add_data now d s =
      { s with total_packets := s.total_packets + 1
               last_packet_time := some now
               connection_status := "Connected".data } := by
  simp only [StepResponseDataManager.add_data, h, if_true]

/-! ## C1 — atomicity of dropping an unparseable datagram -/

/-- C1 (amended): a datagram that fails to parse for the installed sink's
kind (wrong field count, or a non-numeric present field) is dropped
atomically — `latest_data`, the bounded queue, the CSV log (and, for the
deadband sink, the history and the calibration latch) are left exactly as
they were.  However, the statistics are updated *before* validation, so
`total_packets` is incremented and `last_packet_time` and
`connection_status` ARE advanced even for the failing datagram; there is
no dedicated dropped-sample counter. -/
theorem C1_unparseable_datagram_dropped_atomically :
    ∀ (now : Nat) (d : Str) (s : ControlState) (sd : DeadbandState),
      (DataManager.parse d (s.total_packets + 1) = none →
        DataManager.add_data now d s =
          { s with total_packets := s.total_packets + 1
                   last_packet_time := some now
                   connection_status := "Connected".data }) ∧
      (DeadbandDataManager.parse d (sd.total_packets + 1) = none →
        DeadbandDataManager.add_data now d sd =
          { sd with total_packets := sd.total_packets + 1
                    last_packet_time := some now
                    connection_status := "Connected".data }) := by
  intro now d s sd
  exact ⟨DataManager.add_data_of_parse_none now d s,
         DeadbandDataManager.deadband_add_data_of_parse_none now d sd⟩

/-- Witness for C1: the one-field datagram `"abc"` fails the control parse
and leaves everything but the statistics untouched; the four-field
datagram `"1,40,10,10"` fails the deadband parse likewise. -/
theorem C1_witness :
    DataManager.add_data 7 "abc".data DataManager.init =
      { DataManager.init with
          total_packets := DataManager.init.total_packets + 1
          last_packet_time := some 7
          connection_status := "Connected".data } ∧
    DeadbandDataManager.add_data 7 "1,40,10,10".data DeadbandDataManager.init =
      { DeadbandDataManager.init with
          total_packets := DeadbandDataManager.init.total_packets + 1
          last_packet_time := some 7
          connection_status := "Connected".data } :=
  ⟨(C1_unparseable_datagram_dropped_atomically 7 "abc".data DataManager.init
      DeadbandDataManager.init).1 (by decide),
   (C1_unparseable_datagram_dropped_atomically 7 "1,40,10,10".data DataManager.init
      DeadbandDataManager.init).2 (by decide)⟩

/-- C1 counterexample: the datagram `"abc"` fails to parse for the control
sink, yet ingesting it advances the connection status from
`"Waiting for data"` to `"Connected"` and sets `last_packet_time` — so the
claim's "the sink's connection status and lastSampleAt are not advanced
for that datagram" is false; and the only counter incremented is
`total_packets`, which counts all datagrams, not dropped ones. -/
theorem C1_counterexample :
    DataManager.parse "abc".data (DataManager.init.total_packets + 1) = none ∧
    DataManager.init.connection_status = "Waiting for data".data ∧
    DataManager.init.last_packet_time = none ∧
    (DataManager.add_data 7 "abc".data DataManager.init).connection_status
      = "Connected".data ∧
    (DataManager.add_data 7 "abc".data DataManager.init).last_packet_time = some 7 := by
  decide

/-! ## C2 — header-echo lines -/

/-- C2 (amended): a raw line whose stripped text begins with the step CSV
header token `time2sinc` is skipped by the step sink before parsing:
`latest_data`, the bounded queue and the CSV log are unchanged and no
error path is taken.  However, the statistics are updated before the
header check, so `total_packets`, `last_packet_time` and
`connection_status` ARE advanced for the header line. -/
theorem C2_header_echo_skipped :
    ∀ (now : Nat) (d : Str) (s : StepState),
      StepResponseDataManager.stepHeaderToken.isPrefixOf (pyStrip d) = true →
      StepResponseDataManager.add_data now d s =
        { s with total_packets := s.total_packets + 1
                 last_packet_time := some now
                 connection_status := "Connected".data } := by
  intro now d s h
  exact StepResponseDataManager.add_data_of_header now d s h

/-- Witness for C2: the full header row the ESP32 re-sends. -/
theorem C2_witness :
    StepResponseDataManager.add_data 3
      "time2sinc,time_event,motor_dir,v_batt,output_G,step_input,PWM_input,applied_step".data
      StepResponseDataManager.init =
      { StepResponseDataManager.init with
          total_packets := StepResponseDataManager.init.total_packets + 1
          last_packet_time := some 3
          connection_status := "Connected".data } :=
  C2_header_echo_skipped 3
    "time2sinc,time_event,motor_dir,v_batt,output_G,step_input,PWM_input,applied_step".data
    StepResponseDataManager.init (by decide)

/-- C2 counterexample: ingesting the header row does mutate state — it
increments `total_packets` from 0 to 1 and advances the connection status
— so the claim's "zero state mutation: totalPackets, lastSampleAt,
connectionStatus ... all unchanged" is false. -/
theorem C2_counterexample :
    StepResponseDataManager.stepHeaderToken.isPrefixOf
      (pyStrip "time2sinc,time_event,motor_dir,v_batt,output_G,step_input,PWM_input,applied_step".data)
      = true ∧
    StepResponseDataManager.init.total_packets = 0 ∧
    (StepResponseDataManager.add_data 3
      "time2sinc,time_event,motor_dir,v_batt,output_G,step_input,PWM_input,applied_step".data
      StepResponseDataManager.init).total_packets = 1 ∧
    (StepResponseDataManager.add_data 3
      "time2sinc,time_event,motor_dir,v_batt,output_G,step_input,PWM_input,applied_step".data
      StepResponseDataManager.init).connection_status = "Connected".data ∧
    StepResponseDataManager.init.connection_status = "Waiting for data".data := by
  decide

/-! ## C6 — staleness derived at read time -/

/-- C6: after any ingest (so at least one sample was ever seen —
`add_data` sets `last_packet_time` and `connection_status` even for
malformed datagrams), `get_connection_stats` reports the connection lost
exactly when the read-time clock is more than 5 seconds past the last
reception (Lost at 6 seconds of staleness, Connected at 4), the
transition being derived at read time by the pure status computation. -/
theorem C6_staleness_read_time :
    ∀ (s : ControlState) (d : Str) (now t : Nat),
      ((DataManager.get_connection_stats_status t (DataManager.add_data now d s)
          = DataManager.connection_lost_msg) ↔ 5 < t - now) ∧
      ((DataManager.get_connection_stats_status t (DataManager.add_data now d s)
          = "Connected".data) ↔ t - now ≤ 5) := by
  intro s d now t
  obtain ⟨-, hlt, hcs⟩ := DataManager.add_data_stats now d s
  simp only [DataManager.get_connection_stats_status, hlt, hcs]
  by_cases h5 : 5 < t - now
  · rw [if_pos h5]
    constructor
    · exact ⟨fun _ => h5, fun _ => rfl⟩
    · constructor
      · intro hc
        exact absurd hc.symm (by decide)
      · intro hle
        omega
  · rw [if_neg h5]
    constructor
    · constructor
      · intro hc
        exact absurd hc (by decide)
      · intro hlt5
        omega
    · exact ⟨fun _ => by omega, fun _ => rfl⟩

/-! ## C7 — the mode-switch queue drain -/

/-- C7 (amended): the drain step of `switch_experiment_mode` empties the
PID manager's queue and the step manager's queue — so for a switch between
PID and Step (either direction) both the outgoing and the incoming sink's
queues are empty after the drain — but it never drains the deadband
manager's queue, which is left exactly as it was; for a switch into or out
of Deadband mode the claim fails on the deadband side. -/
theorem C7_drain_empties_pid_and_step_only :
    ∀ (q : DashboardQueues),
      (switch_mode_drain q).queueLen .pid = 0 ∧
      (switch_mode_drain q).queueLen .step = 0 ∧
      (switch_mode_drain q).deadband_data_manager_queue
        = q.deadband_data_manager_queue := by
  intro q
  exact ⟨rfl, rfl, rfl⟩

/-- A concrete deadband record, as parsed from `"0,40,10,10,0"`. -/
def dbr0 : DeadbandRecord :=
  { time := 0, pwm := 40, distance := 10, initial_distance := 10,
    motion_detected := 0, full_data := "0,40,10,10,0".data, packet_count := 1 }

/-- C7 counterexample: in a deadband → PID switch the outgoing sink is the
deadband manager; with one sample in its queue, the drain step leaves that
queue non-empty, refuting "after the coordinator's drain step ... both the
outgoing sink's bounded queue and the incoming sink's bounded queue are
empty" for that pair of kinds. -/
theorem C7_counterexample :
    (switch_mode_drain
      { data_manager_queue := []
        step_data_manager_queue := []
        deadband_data_manager_queue := [dbr0] }).queueLen .deadband ≠ 0 := by
  decide

/-! ## C10 — UDP receiver CSV setup on start -/

/-- C10: when `UDPReceiver.start` finds the installed manager with no CSV
file set, or with one whose path no longer exists on disk, it creates a
new session log through that manager's own (dynamically dispatched)
`set_csv_file` under the control-kind name `experiment_<timestamp>.csv` —
even when the installed manager is the step or deadband one, whose
kind-specific header row then goes into that control-named file; when a
CSV file is set and exists, the log target is left unchanged. -/
theorem C10_start_csv_setup :
    ∀ (k : ExperimentKind) (train_id ts : Str) (onDisk : Str → Bool),
      (UDPReceiver.startCsvSetup k train_id none onDisk ts
        = some (set_csv_file k train_id (UDPReceiver.startCsvName ts))) ∧
      (∀ f, onDisk f = false →
        UDPReceiver.startCsvSetup k train_id (some f) onDisk ts
          = some (set_csv_file k train_id (UDPReceiver.startCsvName ts))) ∧
      (∀ f, onDisk f = true →
        UDPReceiver.startCsvSetup k train_id (some f) onDisk ts = none) ∧
      (set_csv_file .step train_id (UDPReceiver.startCsvName ts)).csv_file
        = UDPReceiver.startCsvName ts ∧
      (set_csv_file .deadband train_id (UDPReceiver.startCsvName ts)).csv_file
        = UDPReceiver.startCsvName ts ∧
      (set_csv_file .step train_id (UDPReceiver.startCsvName ts)).headerFields
        = headerRow .step ∧
      (set_csv_file .deadband train_id (UDPReceiver.startCsvName ts)).headerFields
        = headerRow .deadband ∧
      headerRow .step ≠ headerRow .pid := by
  intro k train_id ts onDisk
  refine ⟨rfl, fun f hf => ?_, fun f hf => ?_, rfl, rfl, rfl, rfl, by decide⟩
  · simp [UDPReceiver.startCsvSetup, hf]
  · simp [UDPReceiver.startCsvSetup, hf]

/-- Witness for C10: a step manager whose CSV path is missing from disk
gets a fresh control-named session log with the step header. -/
theorem C10_witness :
    UDPReceiver.startCsvSetup .step [] (some "old.csv".data) (fun _ => false)
      "20250101_000000".data
      = some (set_csv_file .step []
          (UDPReceiver.startCsvName "20250101_000000".data)) :=
  (C10_start_csv_setup .step [] "20250101_000000".data (fun _ => false)).2.1
    "old.csv".data rfl

/-! ## C3 — bounded queue overflow -/

/-- A concrete control record, as parsed from `"1,2"` as the first packet. -/
def r0 : ControlRecord :=
  { timestamp := "1".data, distance := 2, referencia := none, error := none,
    kp := none, ki := none, kd := none, output_pid := none,
    full_data := "1,2".data, packet_count := 1 }

/-- The same record stamped as packet 1001. -/
def cr1001 : ControlRecord := { r0 with packet_count := 1001 }

/-- A control sink that has already ingested 1000 samples without the
dashboard draining its queue: the queue is at capacity. -/
def sFull : ControlState :=
  { DataManager.init with
      total_packets := 1000
      last_packet_time := some 0
      connection_status := "Connected".data
      data_queue := List.replicate 1000 r0 }

/-- One `data_queue.get_nowait()` by a dashboard consumer: removes the
front (oldest) queued record. -/
def drainOne (s : ControlState) : ControlState :=
  { s with data_queue := s.data_queue.drop 1 }

/-- Ghost observer, not a field of the state: whether this ingest call
drops its sample because the queue is full.  `add_data`'s overflow branch
mutates nothing — it only occasionally prints a warning — so the state
itself keeps no record of drops. -/
def droppedOnIngest (d : Str) (s : ControlState) : Bool :=
  (DataManager.parse d (s.total_packets + 1)).isSome
    && decide (queueCapacity ≤ s.data_queue.length)

/-- C3 (amended): the bounded queue never grows past its capacity of 1000;
once full, a successfully parsed sample is dropped whole and the retained
entries — the earliest 1000 — are completely unchanged (drop-newest, FIFO
order preserved); below capacity a parsed sample is appended at the back.
`total_packets` (which counts every ingested datagram, dropped or not) is
incremented on each ingest; the code keeps no dedicated drop counter —
overflow is only occasionally logged to the console. -/
theorem C3_queue_overflow_drop_newest :
    ∀ (now : Nat) (d : Str) (s : ControlState),
      (s.data_queue.length ≤ queueCapacity →
        (DataManager.add_data now d s).data_queue.length ≤ queueCapacity) ∧
      (queueCapacity ≤ s.data_queue.length →
        (DataManager.add_data now d s).data_queue = s.data_queue) ∧
      (∀ r, DataManager.parse d (s.total_packets + 1) = some r →
        s.data_queue.length < queueCapacity →
        (DataManager.add_data now d s).data_queue = s.data_queue ++ [r]) ∧
      (DataManager.add_data now d s).total_packets = s.total_packets + 1 := by
  intro now d s
  cases h : DataManager.parse d (s.total_packets + 1) with
  | none =>
    rw [DataManager.add_data_of_parse_none now d s h]
    exact ⟨fun hle => hle, fun _ => rfl,
           fun r hr => absurd hr (by simp), rfl⟩
  | some r =>
    rw [DataManager.add_data_of_parse_some now d s r h]
    refine ⟨fun hle => ?_, fun hge => ?_, fun r' hr' hlt => ?_, rfl⟩
    · show (queuePut s.data_queue r).length ≤ queueCapacity
      unfold queuePut
      split
      · simp only [List.length_append, List.length_singleton]
        omega
      · exact hle
    · show queuePut s.data_queue r = s.data_queue
      unfold queuePut
      rw [if_neg (by omega)]
    · obtain rfl : r = r' := by injection hr'
      show queuePut s.data_queue r = s.data_queue ++ [r]
      unfold queuePut
      rw [if_pos hlt]

/-- Length of the full sink's queue, kept as a rewrite so the
1000-element list is never unfolded element by element. -/
theorem sFull_queue_length : sFull.data_queue.length = 1000 := by
  show (List.replicate 1000 r0).length = 1000
  rw [List.length_replicate]

theorem drainOne_sFull_queue_length : (drainOne sFull).data_queue.length = 999 := by
  show (List.drop 1 (List.replicate 1000 r0)).length = 999
  rw [List.length_drop, List.length_replicate]

/-- Witness for C3: at capacity, a further valid sample leaves the queue
exactly as it was and only `total_packets` moves. -/
theorem C3_witness :
    queueCapacity ≤ sFull.data_queue.length ∧
    (DataManager.add_data 1 "1,2".data sFull).data_queue = sFull.data_queue ∧
    (DataManager.add_data 1 "1,2".data sFull).total_packets
      = sFull.total_packets + 1 :=
  ⟨by rw [sFull_queue_length]; decide,
   (C3_queue_overflow_drop_newest 1 "1,2".data sFull).2.1
     (by rw [sFull_queue_length]; decide),
   (C3_queue_overflow_drop_newest 1 "1,2".data sFull).2.2.2⟩

set_option maxRecDepth 8000 in
/-- C3 counterexample, aimed at "a drop counter increases monotonically
with each dropped sample": an ingest that drops its sample (full queue)
and an ingest that does not (queue drained by one first) produce states
that agree on `total_packets`, queue length, `latest_data`,
`last_packet_time`, `connection_status` and the CSV log — every statistic
the sink keeps.  No component of the state counts drops; the only counter,
`total_packets`, counts all datagrams alike. -/
theorem C3_counterexample :
    droppedOnIngest "1,2".data sFull = true ∧
    droppedOnIngest "1,2".data (drainOne sFull) = false ∧
    (DataManager.add_data 1 "1,2".data sFull).total_packets
      = (DataManager.add_data 1 "1,2".data (drainOne sFull)).total_packets ∧
    (DataManager.add_data 1 "1,2".data sFull).data_queue.length
      = (DataManager.add_data 1 "1,2".data (drainOne sFull)).data_queue.length ∧
    (DataManager.add_data 1 "1,2".data sFull).latest_data
      = (DataManager.add_data 1 "1,2".data (drainOne sFull)).latest_data ∧
    (DataManager.add_data 1 "1,2".data sFull).last_packet_time
      = (DataManager.add_data 1 "1,2".data (drainOne sFull)).last_packet_time ∧
    (DataManager.add_data 1 "1,2".data sFull).connection_status
      = (DataManager.add_data 1 "1,2".data (drainOne sFull)).connection_status ∧
    (DataManager.add_data 1 "1,2".data sFull).csv_log
      = (DataManager.add_data 1 "1,2".data (drainOne sFull)).csv_log := by
  have hA : DataManager.parse "1,2".data (sFull.total_packets + 1) = some cr1001 := by
    decide
  have hB : DataManager.parse "1,2".data ((drainOne sFull).total_packets + 1)
      = some cr1001 := by decide
  rw [DataManager.add_data_of_parse_some 1 "1,2".data sFull cr1001 hA,
      DataManager.add_data_of_parse_some 1 "1,2".data (drainOne sFull) cr1001 hB]
  refine ⟨?_, ?_, rfl, ?_, rfl, rfl, rfl, rfl⟩
  · unfold droppedOnIngest
    rw [hA]
    simp only [Option.isSome_some, Bool.true_and, decide_eq_true_eq]
    rw [sFull_queue_length]
    decide
  · unfold droppedOnIngest
    rw [hB]
    simp only [Option.isSome_some, Bool.true_and, decide_eq_false_iff_not]
    rw [drainOne_sFull_queue_length]
    decide
  · show (queuePut sFull.data_queue cr1001).length
        = (queuePut (drainOne sFull).data_queue cr1001).length
    unfold queuePut
    rw [if_neg (by rw [sFull_queue_length]; decide),
        if_pos (by rw [drainOne_sFull_queue_length]; decide)]
    rw [List.length_append, sFull_queue_length, drainOne_sFull_queue_length,
        List.length_singleton]

/-! ## C4 — step decoder backward compatibility -/

theorem StepResponseDataManager.parse_too_few (d : Str) (pc : Nat)
    (h : (dataParts d).length < 7) :
    StepResponseDataManager.parse d pc = none := by
  simp only [StepResponseDataManager.parse]
  rw [if_neg (by omega), if_neg (by omega)]

theorem StepResponseDataManager.applied_from_field8 (d : Str) (pc : Nat)
    (r : StepRecord) (hlen : 8 ≤ (dataParts d).length)
    (h : StepResponseDataManager.parse d pc = some r) :
    parseFloat ((dataParts d).getD 7 []) = some r.applied_step := by
  simp only [StepResponseDataManager.parse] at h
  rw [if_pos hlen] at h
  split at h
  · injection h with h'
    subst h'
    assumption
  · exact absurd h (by simp)

theorem StepResponseDataManager.applied_fallback (d : Str) (pc : Nat)
    (r : StepRecord) (h7 : (dataParts d).length = 7)
    (h : StepResponseDataManager.parse d pc = some r) :
    r.applied_step = r.step_input := by
  simp only [StepResponseDataManager.parse] at h
  rw [if_neg (by omega), if_pos (by omega)] at h
  split at h
  · injection h with h'
    subst h'
    rfl
  · exact absurd h (by simp)

/-- The 7-field step datagram of the claim (old firmware, no applied_step). -/
def stepLine7 : Str := "1,2,1,8.0,5.0,3.0,76.5".data

/-- The 8-field step datagram of the claim (new firmware). -/
def stepLine8 : Str := "1,2,1,8.0,5.0,3.0,76.5,3.0".data

/-- What the step parser produces for `stepLine7` as packet 1. -/
def stepRec7 : StepRecord :=
  { time2sinc := 1, time_event := 2, motor_dir := 1, v_batt := 8, output_G := 5,
    step_input := 3, PWM_input := mkRat 153 2, applied_step := 3,
    full_data := stepLine7, packet_count := 1 }

/-- What the step parser produces for `stepLine8` as packet 1. -/
def stepRec8 : StepRecord := { stepRec7 with full_data := stepLine8 }

/-- C4: decoding the 7-field datagram succeeds with
`applied_step = step_input = 3.0` (fallback to field 6); decoding the
8-field datagram succeeds with `applied_step = 3.0` taken from field 8
directly; any datagram with fewer than 7 fields is rejected.  The last two
conjuncts state the provenance in general: with ≥ 8 fields `applied_step`
is the parsed field 8, and with exactly 7 fields it equals `step_input`. -/
theorem C4_step_decoder_backward_compat :
    (StepResponseDataManager.parse stepLine7 1 = some stepRec7 ∧
      stepRec7.applied_step = 3 ∧ stepRec7.step_input = 3) ∧
    (StepResponseDataManager.parse stepLine8 1 = some stepRec8 ∧
      stepRec8.applied_step = 3) ∧
    (∀ (d : Str) (pc : Nat), (dataParts d).length < 7 →
      StepResponseDataManager.parse d pc = none) ∧
    (∀ (d : Str) (pc : Nat) (r : StepRecord), 8 ≤ (dataParts d).length →
      StepResponseDataManager.parse d pc = some r →
      parseFloat ((dataParts d).getD 7 []) = some r.applied_step) ∧
    (∀ (d : Str) (pc : Nat) (r : StepRecord), (dataParts d).length = 7 →
      StepResponseDataManager.parse d pc = some r →
      r.applied_step = r.step_input) :=
  ⟨⟨by decide, by decide, by decide⟩,
   ⟨by decide, by decide⟩,
   StepResponseDataManager.parse_too_few,
   StepResponseDataManager.applied_from_field8,
   StepResponseDataManager.applied_fallback⟩

/-- Witness for C4: the six-field datagram `"1,2,1,8.0,5.0,3.0"` is
rejected, and the provenance facts hold on the claim's two datagrams. -/
theorem C4_witness :
    StepResponseDataManager.parse "1,2,1,8.0,5.0,3.0".data 1 = none ∧
    parseFloat ((dataParts stepLine8).getD 7 []) = some stepRec8.applied_step ∧
    stepRec7.applied_step = stepRec7.step_input :=
  ⟨C4_step_decoder_backward_compat.2.2.1 "1,2,1,8.0,5.0,3.0".data 1 (by decide),
   C4_step_decoder_backward_compat.2.2.2.1 stepLine8 1 stepRec8 (by decide)
     C4_step_decoder_backward_compat.2.1.1,
   C4_step_decoder_backward_compat.2.2.2.2 stepLine7 1 stepRec7 (by decide)
     C4_step_decoder_backward_compat.1.1⟩

/-! ## C5 — deadband calibration latch -/

/-- C5 (amended): the latch condition in `add_data` is
`motion_detected == 1 and calibrated_deadband == 0`, with `0` doubling as
the uncalibrated sentinel.  Hence: a motion sample arriving while the sink
is uncalibrated latches `calibrated_deadband` to that sample's `pwm`; once
the latch holds a NONZERO value no later sample changes it, until
`clear_history` resets it to the sentinel `0` (and empties the history).
A first motion sample whose `pwm` is `0` leaves the sink indistinguishable
from uncalibrated, so a later motion sample can still overwrite. -/
theorem C5_deadband_latch :
    ∀ (now : Nat) (d : Str) (s : DeadbandState) (r : DeadbandRecord),
      (DeadbandDataManager.parse d (s.total_packets + 1) = some r →
        r.motion_detected = 1 → s.calibrated_deadband = 0 →
        (DeadbandDataManager.add_data now d s).calibrated_deadband = r.pwm) ∧
      (s.calibrated_deadband ≠ 0 →
        (DeadbandDataManager.add_data now d s).calibrated_deadband
          = s.calibrated_deadband) ∧
      (DeadbandDataManager.clear_history s).calibrated_deadband = 0 ∧
      (DeadbandDataManager.clear_history s).deadband_history
        = emptyDeadbandHistory := by
  intro now d s r
  refine ⟨fun hp hm hc => ?_, fun hne => ?_, rfl, rfl⟩
  · rw [DeadbandDataManager.deadband_add_data_of_parse_some now d s r hp]
    show (if r.motion_detected = 1 ∧ s.calibrated_deadband = 0 then r.pwm
          else s.calibrated_deadband) = r.pwm
    rw [if_pos ⟨hm, hc⟩]
  · cases hq : DeadbandDataManager.parse d (s.total_packets + 1) with
    | none => rw [DeadbandDataManager.deadband_add_data_of_parse_none now d s hq]
    | some r' =>
      rw [DeadbandDataManager.deadband_add_data_of_parse_some now d s r' hq]
      show (if r'.motion_detected = 1 ∧ s.calibrated_deadband = 0 then r'.pwm
            else s.calibrated_deadband) = s.calibrated_deadband
      rw [if_neg (fun hand => hne hand.2)]

/-- The record the deadband parser produces for `"5,40,10,10,1"` as packet 1. -/
def dbLatchRec : DeadbandRecord :=
  { time := 5, pwm := 40, distance := 10, initial_distance := 10,
    motion_detected := 1, full_data := "5,40,10,10,1".data, packet_count := 1 }

/-- Witness for C5: a motion sample with pwm 40 latches a fresh sink to
40; a sink already latched at 40 ignores a further motion sample with a
different pwm; `clear_history` resets the latch. -/
theorem C5_witness :
    (DeadbandDataManager.add_data 1 "5,40,10,10,1".data
        DeadbandDataManager.init).calibrated_deadband = dbLatchRec.pwm ∧
    (DeadbandDataManager.add_data 2 "6,50,12,10,1".data
        { DeadbandDataManager.init with calibrated_deadband := 40 }).calibrated_deadband
      = ({ DeadbandDataManager.init with
            calibrated_deadband := 40 } : DeadbandState).calibrated_deadband ∧
    (DeadbandDataManager.clear_history
        { DeadbandDataManager.init with calibrated_deadband := 40 }).calibrated_deadband
      = 0 :=
  ⟨(C5_deadband_latch 1 "5,40,10,10,1".data DeadbandDataManager.init dbLatchRec).1
     (by decide) (by decide) (by decide),
   (C5_deadband_latch 2 "6,50,12,10,1".data
     { DeadbandDataManager.init with calibrated_deadband := 40 } dbLatchRec).2.1
     (by decide),
   ((C5_deadband_latch 0 [] { DeadbandDataManager.init with calibrated_deadband := 40 }
     dbLatchRec).2.2.1)⟩

/-- What the deadband parser produces for `"0,0,10,10,1"` as packet 1: a
motion-detected sample whose pwm is 0, the sentinel value. -/
def dbFirst : DeadbandRecord :=
  { time := 0, pwm := 0, distance := 10, initial_distance := 10,
    motion_detected := 1, full_data := "0,0,10,10,1".data, packet_count := 1 }

/-- What the deadband parser produces for `"1,50,12,10,1"` as packet 2. -/
def dbSecond : DeadbandRecord :=
  { time := 1, pwm := 50, distance := 12, initial_distance := 10,
    motion_detected := 1, full_data := "1,50,12,10,1".data, packet_count := 2 }

/-- C5 counterexample: the first motion-detected sample has `pwm = 0`, so
the "latch" stores 0 — the sentinel — and a LATER motion-detected sample
with a different pwm (50) overwrites `calibrated_deadband`, contradicting
"every later ingested sample with motionDetected=true ... leaves
calibratedDeadband unchanged" before any `clear()` was called. -/
theorem C5_counterexample :
    DeadbandDataManager.parse "0,0,10,10,1".data 1 = some dbFirst ∧
    dbFirst.motion_detected = 1 ∧
    DeadbandDataManager.parse "1,50,12,10,1".data 2 = some dbSecond ∧
    dbSecond.motion_detected = 1 ∧
    (DeadbandDataManager.add_data 1 "0,0,10,10,1".data
        DeadbandDataManager.init).calibrated_deadband = dbFirst.pwm ∧
    (DeadbandDataManager.add_data 2 "1,50,12,10,1".data
        (DeadbandDataManager.add_data 1 "0,0,10,10,1".data
          DeadbandDataManager.init)).calibrated_deadband = 50 ∧
    (50 : ℤ) ≠ dbFirst.pwm := by
  decide

/-! ## C8 — per-train topic derivation -/

theorem append_eq_append_or {u v : Str} :
    ∀ (a b : Str), a ++ u = b ++ v → a <+: b ∨ b <+: a := by
  intro a
  induction a with
  | nil => exact fun b _ => Or.inl (List.nil_prefix)
  | cons c a ih =>
    intro b h
    cases b with
    | nil => exact Or.inr (List.nil_prefix)
    | cons c' b =>
      injection h with hc ht
      subst hc
      rcases ih b ht with h1 | h1
      · exact Or.inl (List.cons_prefix_cons.mpr ⟨rfl, h1⟩)
      · exact Or.inr (List.cons_prefix_cons.mpr ⟨rfl, h1⟩)

theorem TrainConfig.get_topic_eq (p b : Str) :
    TrainConfig.get_topic p b = (p ++ ['/']) ++
      (if TrainConfig.trenesSeg.isPrefixOf b then b.drop 7 else b) := by
  unfold TrainConfig.get_topic
  split <;> simp

/-- C8 (amended): a derived wire topic is always
`mqtt_prefix ++ "/" ++ rest` (the leading `trenes/` segment replaced, or
the whole base topic appended).  Two trains cannot collide as long as
neither `mqtt_prefix ++ "/"` is a string prefix of the other's — which
holds for the shipped configurations `trenes/trainA` … `trenes/trainE`
and for any set of distinct slash-free prefixes — but NOT for arbitrary
distinct prefixes: with nested prefixes such as `a` and `a/b` the derived
topics of two different trains can coincide. -/
theorem C8_topic_derivation_no_collision :
    ∀ (p1 p2 : Str),
      ¬ (p1 ++ ['/'] <+: p2 ++ ['/']) → ¬ (p2 ++ ['/'] <+: p1 ++ ['/']) →
      ∀ (b1 b2 : Str), TrainConfig.get_topic p1 b1 ≠ TrainConfig.get_topic p2 b2 := by
  intro p1 p2 h12 h21 b1 b2 heq
  rw [TrainConfig.get_topic_eq, TrainConfig.get_topic_eq] at heq
  rcases append_eq_append_or _ _ heq with h | h
  · exact h12 h
  · exact h21 h

/-- Witness for C8: the shipped prefixes `trenes/trainA` and
`trenes/trainB` derive distinct wire topics from the same base topic. -/
theorem C8_witness :
    TrainConfig.get_topic "trenes/trainA".data "trenes/kp".data
      ≠ TrainConfig.get_topic "trenes/trainB".data "trenes/kp".data :=
  C8_topic_derivation_no_collision "trenes/trainA".data "trenes/trainB".data
    (by decide) (by decide) "trenes/kp".data "trenes/kp".data

/-- C8 counterexample: two trains with DISTINCT prefixes `a` and `a/b`
derive the SAME wire topic `a/b/c` from the base topics `trenes/b/c` and
`trenes/c`, refuting "for any two trains with distinct mqtt_prefix values
and any two base topics, the derived wire topic of one train never equals
a derived wire topic of the other". -/
theorem C8_counterexample :
    "a".data ≠ "a/b".data ∧
    TrainConfig.get_topic "a".data "trenes/b/c".data
      = TrainConfig.get_topic "a/b".data "trenes/c".data := by
  decide

/-! ## C9 — control decoding never parses the time field -/

theorem parseOptField_isSome (parts : List Str) (i : Nat)
    (h : i < parts.length → (parseFloat (parts.getD i [])).isSome = true) :
    (parseOptField parts i).isSome = true := by
  unfold parseOptField
  cases hg : parts[i]? with
  | none => simp
  | some f =>
    obtain ⟨hi, -⟩ := List.getElem?_eq_some.mp hg
    have hgd : parts.getD i [] = f := by simp [List.getD, hg]
    obtain ⟨q, hq⟩ := Option.isSome_iff_exists.mp (hgd ▸ h hi)
    simp [hq]

/-- C9: the control decoder succeeds on every datagram with at least two
comma-separated fields whose present fields 2–8 are numeric — with no
condition whatsoever on the first (time) field, which is never passed to
`float` but stored verbatim as text in the record that becomes
`latest_data`. -/
theorem C9_control_time_field_verbatim :
    ∀ (d : Str) (now : Nat) (s : ControlState),
      2 ≤ (dataParts d).length →
      (∀ i, 1 ≤ i → i ≤ 7 → i < (dataParts d).length →
        (parseFloat ((dataParts d).getD i [])).isSome = true) →
      ∃ r, DataManager.parse d (s.total_packets + 1) = some r ∧
        (DataManager.add_data now d s).latest_data = some r ∧
        r.timestamp = (dataParts d).getD 0 [] ∧
        r.full_data = d := by
  intro d now s hlen hnum
  obtain ⟨dist, hdist⟩ := Option.isSome_iff_exists.mp
    (hnum 1 (by omega) (by omega) (by omega))
  have ho : ∀ i, 2 ≤ i → i ≤ 7 → (parseOptField (dataParts d) i).isSome = true :=
    fun i h2 h7 =>
      parseOptField_isSome (dataParts d) i (fun hi => hnum i (by omega) h7 hi)
  obtain ⟨o2, h2⟩ := Option.isSome_iff_exists.mp (ho 2 (by omega) (by omega))
  obtain ⟨o3, h3⟩ := Option.isSome_iff_exists.mp (ho 3 (by omega) (by omega))
  obtain ⟨o4, h4⟩ := Option.isSome_iff_exists.mp (ho 4 (by omega) (by omega))
  obtain ⟨o5, h5⟩ := Option.isSome_iff_exists.mp (ho 5 (by omega) (by omega))
  obtain ⟨o6, h6⟩ := Option.isSome_iff_exists.mp (ho 6 (by omega) (by omega))
  obtain ⟨o7, h7⟩ := Option.isSome_iff_exists.mp (ho 7 (by omega) (by omega))
  have hp : DataManager.parse d (s.total_packets + 1) =
      some { timestamp := (dataParts d).getD 0 []
             distance := dist
             referencia := o2
             error := o3
             kp := o4
             ki := o5
             kd := o6
             output_pid := o7
             full_data := d
             packet_count := s.total_packets + 1 } := by
    simp only [DataManager.parse]
    rw [if_pos hlen, hdist, h2, h3, h4, h5, h6, h7]
  refine ⟨_, hp, ?_, rfl, rfl⟩
  rw [DataManager.add_data_of_parse_some now d s _ hp]

/-- Witness for C9: `"abc,5"` — non-numeric time field, numeric field 2 —
decodes; the stored time field is the verbatim text `abc`. -/
theorem C9_witness :
    ∃ r, DataManager.parse "abc,5".data (DataManager.init.total_packets + 1) = some r ∧
      (DataManager.add_data 0 "abc,5".data DataManager.init).latest_data = some r ∧
      r.timestamp = (dataParts "abc,5".data).getD 0 [] ∧
      r.full_data = "abc,5".data := by
  refine C9_control_time_field_verbatim "abc,5".data 0 DataManager.init (by decide) ?_
  intro i h1 h7 hl
  have hl2 : (dataParts "abc,5".data).length = 2 := by decide
  rw [hl2] at hl
  obtain rfl : i = 1 := by omega
  decide
